import Mathlib

/-!
Verification development for the planar warp algebra and resampler of the
spano repository. The Rust source in src/warps.rs is shallowly embedded:
the 3x3 float matrix becomes an exact rational matrix, fallible or
panicking operations return Option, and the parallel per-pixel resampler
is modelled as a pure per-index computation over flattened buffers.
-/

/-- TransformationType enum from src/warps.rs. -/
inductive TransformationType where
  | Identity
  | Translational
  | Affine
  | Projective
  | Unknown
  deriving DecidableEq, Fintype, Repr

/-- num_params from src/warps.rs: parameter count of each kind. -/
def TransformationType.num_params : TransformationType → Nat
  | .Identity => 0
  | .Translational => 2
  | .Affine => 6
  | .Projective => 8
  | .Unknown => 0

/-- A 3x3 matrix of exact rationals, modelling the ndarray Array2 of f32.
Fields are row-major: aij is row i, column j. -/
structure Mat3 where
  a00 : ℚ
  a01 : ℚ
  a02 : ℚ
  a10 : ℚ
  a11 : ℚ
  a12 : ℚ
  a20 : ℚ
  a21 : ℚ
  a22 : ℚ
  deriving DecidableEq, Repr

/-- The 3x3 identity matrix (Array2 eye in the source). -/
def Mat3.eye : Mat3 := ⟨1, 0, 0, 0, 1, 0, 0, 0, 1⟩

/-- Matrix product, as ndarray dot. -/
def Mat3.mul (A B : Mat3) : Mat3 where
  a00 := A.a00 * B.a00 + A.a01 * B.a10 + A.a02 * B.a20
  a01 := A.a00 * B.a01 + A.a01 * B.a11 + A.a02 * B.a21
  a02 := A.a00 * B.a02 + A.a01 * B.a12 + A.a02 * B.a22
  a10 := A.a10 * B.a00 + A.a11 * B.a10 + A.a12 * B.a20
  a11 := A.a10 * B.a01 + A.a11 * B.a11 + A.a12 * B.a21
  a12 := A.a10 * B.a02 + A.a11 * B.a12 + A.a12 * B.a22
  a20 := A.a20 * B.a00 + A.a21 * B.a10 + A.a22 * B.a20
  a21 := A.a20 * B.a01 + A.a21 * B.a11 + A.a22 * B.a21
  a22 := A.a20 * B.a02 + A.a21 * B.a12 + A.a22 * B.a22

/-- Apply the matrix to a homogeneous point (x, y, 1), yielding all three
coordinates (the mat.dot of warp_points, one column at a time). -/
def Mat3.applyH (A : Mat3) (x y : ℚ) : ℚ × ℚ × ℚ :=
  (A.a00 * x + A.a01 * y + A.a02,
   A.a10 * x + A.a11 * y + A.a12,
   A.a20 * x + A.a21 * y + A.a22)

/-- Divide every entry by a scalar, as `mat / mat[(2,2)]` in get_params. -/
def Mat3.divScalar (A : Mat3) (c : ℚ) : Mat3 :=
  ⟨A.a00 / c, A.a01 / c, A.a02 / c,
   A.a10 / c, A.a11 / c, A.a12 / c,
   A.a20 / c, A.a21 / c, A.a22 / c⟩

/-- Determinant of a 3x3 matrix, used to model LAPACK inversion. -/
def Mat3.det (A : Mat3) : ℚ :=
  A.a00 * (A.a11 * A.a22 - A.a12 * A.a21)
    - A.a01 * (A.a10 * A.a22 - A.a12 * A.a20)
    + A.a02 * (A.a10 * A.a21 - A.a11 * A.a20)

/-- Matrix inverse via the adjugate; none when singular (the source panics
on `.inv().expect(..)` in that case). -/
def Mat3.inv3 (A : Mat3) : Option Mat3 :=
  let d := A.det
  if d = 0 then none
  else some
    ⟨(A.a11 * A.a22 - A.a12 * A.a21) / d,
     (A.a02 * A.a21 - A.a01 * A.a22) / d,
     (A.a01 * A.a12 - A.a02 * A.a11) / d,
     (A.a12 * A.a20 - A.a10 * A.a22) / d,
     (A.a00 * A.a22 - A.a02 * A.a20) / d,
     (A.a02 * A.a10 - A.a00 * A.a12) / d,
     (A.a10 * A.a21 - A.a11 * A.a20) / d,
     (A.a01 * A.a20 - A.a00 * A.a21) / d,
     (A.a00 * A.a11 - A.a01 * A.a10) / d⟩

/-- The Mapping struct from src/warps.rs: a 3x3 matrix plus a kind tag. -/
structure Mapping where
  mat : Mat3
  kind : TransformationType
  deriving DecidableEq, Repr

/-- from_matrix constructor. -/
def Mapping.from_matrix (mat : Mat3) (kind : TransformationType) : Mapping :=
  ⟨mat, kind⟩

/-- from_params from src/warps.rs: build a Mapping from a parameter list.
The wildcard arm of the Rust match panics; that is modelled by none. -/
def Mapping.from_params (params : List ℚ) : Option Mapping :=
  match params with
  | [] => some (Mapping.from_matrix Mat3.eye .Identity)
  | [dx, dy] =>
      some (Mapping.from_matrix ⟨1, 0, dx, 0, 1, dy, 0, 0, 1⟩ .Translational)
  | [p1, p2, p3, p4, p5, p6] =>
      some (Mapping.from_matrix ⟨p1 + 1, p3, p5, p2, p4 + 1, p6, 0, 0, 1⟩ .Affine)
  | [p1, p2, p3, p4, p5, p6, p7, p8] =>
      some (Mapping.from_matrix ⟨p1 + 1, p3, p5, p2, p4 + 1, p6, p7, p8, 1⟩ .Projective)
  | _ => none

/-- Fallback mapping used only to totalize the always-successful factory
methods below; it is never actually produced by them. -/
def Mapping.junk : Mapping := ⟨Mat3.eye, .Unknown⟩

/-- scale from src/warps.rs: a purely scaling (affine) Mapping. -/
def Mapping.scale (x y : ℚ) : Mapping :=
  (Mapping.from_params [x - 1, 0, 0, y - 1, 0, 0]).getD Mapping.junk

/-- shift from src/warps.rs: a purely translational Mapping. -/
def Mapping.shift (x y : ℚ) : Mapping :=
  (Mapping.from_params [x, y]).getD Mapping.junk

/-- identity from src/warps.rs: the identity Mapping. -/
def Mapping.identityMap : Mapping :=
  (Mapping.from_params []).getD Mapping.junk

/-- warp_points from src/warps.rs: fast path for Identity kind, otherwise
lift each point to homogeneous form, apply the matrix, and divide all
entries by max(third coordinate, 1e-8), keeping the first two. -/
def Mapping.warp_points (m : Mapping) (points : List (ℚ × ℚ)) : List (ℚ × ℚ) :=
  if m.kind = .Identity then points
  else
    points.map (fun p =>
      let w := m.mat.applyH p.1 p.2
      let d := max w.2.2 (1 / 100000000)
      (w.1 / d, w.2.1 / d))

/-- get_params from src/warps.rs: normalize the matrix by its bottom-right
entry, then emit the minimal parameter list for the tagged kind. The
Unknown arm panics in the source, modelled by none. -/
def Mapping.get_params (m : Mapping) : Option (List ℚ) :=
  let N := m.mat.divScalar m.mat.a22
  match m.kind with
  | .Identity => some []
  | .Translational => some [N.a02, N.a12]
  | .Affine => some [N.a00 - 1, N.a10, N.a01, N.a11 - 1, N.a02, N.a12]
  | .Projective =>
      some [N.a00 - 1, N.a10, N.a01, N.a11 - 1, N.a02, N.a12, N.a20, N.a21]
  | .Unknown => none

/-- get_params_full from src/warps.rs: always emit the 8-parameter
projective form after normalization, regardless of kind. -/
def Mapping.get_params_full (m : Mapping) : List ℚ :=
  let N := m.mat.divScalar m.mat.a22
  [N.a00 - 1, N.a10, N.a01, N.a11 - 1, N.a02, N.a12, N.a20, N.a21]

/-- inverse from src/warps.rs: invert the matrix, keep the kind. -/
def Mapping.inverse (m : Mapping) : Option Mapping :=
  (m.mat.inv3).map (fun B => ⟨B, m.kind⟩)

/-- Rust max_by_key over the three-element kind array: on ties of the
num_params key the LAST maximal element is returned. -/
def maxKind3 (lk sk rk : TransformationType) : TransformationType :=
  let a := if lk.num_params ≤ sk.num_params then sk else lk
  if a.num_params ≤ rk.num_params then rk else a

/-- transform from src/warps.rs: compose as L * M * R where absent
operands default to the identity matrix with Unknown kind; the result
kind is the max_by_key winner over num_params. -/
def Mapping.transform (self : Mapping) (lhs rhs : Option Mapping) : Mapping :=
  let lp := match lhs with
    | some m => (m.mat, m.kind)
    | none => (Mat3.eye, TransformationType.Unknown)
  let rp := match rhs with
    | some m => (m.mat, m.kind)
    | none => (Mat3.eye, TransformationType.Unknown)
  { mat := (lp.1.mul self.mat).mul rp.1,
    kind := maxKind3 lp.2 self.kind rp.2 }

/-- rescale from src/warps.rs: transform with scale(1/s) on the left and
scale(s) on the right, then force the kind back to the original. -/
def Mapping.rescale (m : Mapping) (s : ℚ) : Mapping :=
  let map := m.transform (some (Mapping.scale (1 / s) (1 / s)))
    (some (Mapping.scale s s))
  { map with kind := m.kind }

/-- The scan inside accumulate: repeatedly right-compose the running
accumulator with the next mapping, emitting each intermediate value. -/
def scanAcc (acc : Mapping) : List Mapping → List Mapping
  | [] => []
  | x :: xs =>
      let acc' := acc.transform none (some x)
      acc' :: scanAcc acc' xs

/-- accumulate from src/warps.rs: prepend an identity warp and scan. -/
def Mapping.accumulate (mappings : List Mapping) : List Mapping :=
  scanAcc Mapping.identityMap (Mapping.identityMap :: mappings)

/-- Left-to-right product of the matrices of a list of mappings. -/
def prodMats (l : List Mapping) : Mat3 :=
  l.foldl (fun A m => A.mul m.mat) Mat3.eye

/-- corners from src/warps.rs: warp the four corners of a (w, h) rectangle
through the inverse mapping. -/
def Mapping.corners (m : Mapping) (size : ℕ × ℕ) : Option (List (ℚ × ℚ)) :=
  (m.inverse).map (fun inv =>
    inv.warp_points
      [(0, 0), ((size.1 : ℚ), 0), ((size.1 : ℚ), (size.2 : ℚ)), (0, (size.2 : ℚ))])

/-- Minimum of a list of rationals; none on the empty list (the source
folds from f32 INFINITY, only ever over nonempty corner lists). -/
def listMin : List ℚ → Option ℚ
  | [] => none
  | x :: xs => some (xs.foldl min x)

/-- Maximum of a list of rationals; none on the empty list. -/
def listMax : List ℚ → Option ℚ
  | [] => none
  | x :: xs => some (xs.foldl max x)

/-- extent from src/warps.rs: per-axis min and max over the corners. -/
def Mapping.extent (m : Mapping) (size : ℕ × ℕ) :
    Option ((ℚ × ℚ) × (ℚ × ℚ)) :=
  (m.corners size).bind (fun cs =>
    match listMin (cs.map Prod.fst), listMin (cs.map Prod.snd),
        listMax (cs.map Prod.fst), listMax (cs.map Prod.snd) with
    | some mnx, some mny, some mxx, some mxy => some ((mnx, mny), (mxx, mxy))
    | _, _, _, _ => none)

/-- The first n elements of the infinite cycle of a list; empty when the
list is empty, matching iterator cycle-then-zip truncation. -/
def cycleTake (n : ℕ) (l : List α) : List α :=
  (List.range n).filterMap (fun i => l[i % l.length]?)

/-- maximum_extent from src/warps.rs: broadcast the shorter list by
cycling, compute each extent, reduce to overall bounds, and return the
size together with a translational offset mapping. Stacking an empty
collection (unwrap) and a failed inverse both surface as none. -/
def Mapping.maximum_extent (maps : List Mapping) (sizes : List (ℕ × ℕ)) :
    Option ((ℚ × ℚ) × Mapping) :=
  let pairs : List (Mapping × (ℕ × ℕ)) :=
    if sizes.length ≤ maps.length then
      maps.zip (cycleTake maps.length sizes)
    else
      (sizes.zip (cycleTake sizes.length maps)).map
        (fun p : (ℕ × ℕ) × Mapping => (p.2, p.1))
  (pairs.mapM (fun p : Mapping × (ℕ × ℕ) => p.1.extent p.2)).bind (fun exts =>
    match listMin (exts.map (fun e => e.1.1)), listMin (exts.map (fun e => e.1.2)),
        listMax (exts.map (fun e => e.2.1)), listMax (exts.map (fun e => e.2.2)) with
    | some mnx, some mny, some mxx, some mxy =>
        (Mapping.from_params [mnx, mny]).map (fun off =>
          ((mxx - mnx, mxy - mny), off))
    | _, _, _, _ => none)

/-- The synthesized destination grid of warp_array3_into: point i is
(i mod out_w, i div out_w), for out_w * out_h points. -/
def gridPoints (out_h out_w : ℕ) : List (ℕ × ℕ) :=
  (List.range (out_w * out_h)).map (fun i => (i % out_w, i / out_w))

/-- The in-range predicates of warp_array3_into: -pad <= v <= limit-1+pad. -/
def in_range (pad : ℚ) (limit : ℕ) (v : ℚ) : Bool :=
  decide (-pad ≤ v) && decide (v ≤ (limit : ℚ) - 1 + pad)

/-- The padding induced by an optional background: 1.0 when present. -/
def padOf (background : Option (List ℚ)) : ℚ :=
  match background with
  | some _ => 1
  | none => 0

/-- The default reduction function of warp_array3_into: element-wise
assignment of the sampled pixel into the destination slice (zip, so the
destination tail beyond the source length is untouched). -/
def assignFunc (dst src : List ℚ) : List ℚ :=
  (dst.zip src).map Prod.snd ++ dst.drop src.length

/-- get_pix_or_bkg from warp_array3_into: background outside the source
rectangle, otherwise the length-dc slice at the flat HWC offset. -/
def get_pix_or_bkg (data : List ℚ) (data_h data_w data_c : ℕ)
    (bkg : List ℚ) (x y : ℚ) : List ℚ :=
  if x < 0 ∨ (data_w : ℚ) ≤ x ∨ y < 0 ∨ (data_h : ℚ) ≤ y then bkg
  else (data.drop ((⌊y⌋.toNat * data_w + ⌊x⌋.toNat) * data_c)).take data_c

/-- Channel-wise combination of the four corner samples. -/
def zip4With (f : ℚ → ℚ → ℚ → ℚ → ℚ) : List ℚ → List ℚ → List ℚ → List ℚ → List ℚ
  | a :: as', b :: bs, c :: cs, d :: ds => f a b c d :: zip4With f as' bs cs ds
  | _, _, _, _ => []

/-- Bilinear interpolation of one destination pixel in warp_array3_into. -/
def samplePixel (data : List ℚ) (data_h data_w data_c : ℕ)
    (bkg : List ℚ) (x y : ℚ) : List ℚ :=
  let left : ℚ := (⌊x⌋ : ℚ)
  let right : ℚ := left + 1
  let top : ℚ := (⌊y⌋ : ℚ)
  let bottom : ℚ := top + 1
  let right_weight := x - left
  let left_weight := 1 - right_weight
  let bottom_weight := y - top
  let top_weight := 1 - bottom_weight
  let tl := get_pix_or_bkg data data_h data_w data_c bkg left top
  let tr := get_pix_or_bkg data data_h data_w data_c bkg right top
  let bl := get_pix_or_bkg data data_h data_w data_c bkg left bottom
  let br := get_pix_or_bkg data data_h data_w data_c bkg right bottom
  zip4With
    (fun a b c d =>
      top_weight * left_weight * a + top_weight * right_weight * b
        + bottom_weight * left_weight * c + bottom_weight * right_weight * d)
    tl tr bl br

/-- warp_array3_into from src/warps.rs, modelled sequentially over
flattened buffers: out is the list of per-pixel channel slices, valid the
flat mask. Channel depths above MAX_CHANNELS = 8 panic (none). Pixels
beyond the zipped prefix keep their previous contents, as the in-place
parallel zip leaves them untouched. -/
def warp_array3_into (m : Mapping) (data : List ℚ)
    (data_h data_w data_c : ℕ)
    (out : List (List ℚ)) (valid : List Bool)
    (out_h out_w out_c : ℕ)
    (points : Option (List (ℕ × ℕ))) (background : Option (List ℚ))
    (func : Option (List ℚ → List ℚ → List ℚ)) :
    Option (List (List ℚ) × List Bool) :=
  if 8 < out_c ∨ 8 < data_c then none
  else
    let pts := points.getD (gridPoints out_h out_w)
    let f := func.getD assignFunc
    let bkg := match background with
      | some b => b
      | none => List.replicate out_c 0
    let pad := padOf background
    let has_bkg := background.isSome
    let warpd := m.warp_points (pts.map (fun p => ((p.1 : ℚ), (p.2 : ℚ))))
    let n := min out.length (min valid.length warpd.length)
    let step := fun (dst : List ℚ) (xy : ℚ × ℚ) =>
      if !(in_range pad data_w xy.1) || !(in_range pad data_h xy.2) then
        ((if has_bkg then f dst bkg else dst), false)
      else
        (f dst (samplePixel data data_h data_w data_c bkg xy.1 xy.2), true)
    let stepped := List.zipWith step (out.take n) (warpd.take n)
    some (stepped.map Prod.fst ++ out.drop n,
      stepped.map Prod.snd ++ valid.drop n)

/-- The projective matrix of the warp_points unit test in src/warps.rs. -/
def exampleProjMat : Mat3 :=
  ⟨1.13411823, 4.38092511, 9.315785,
   1.37351153, 5.27648111, 1.60252762,
   7.76114426, 9.66312177, 2.61286966⟩

theorem Mat3.eye_mul (A : Mat3) : Mat3.eye.mul A = A := by
  cases A
  simp [Mat3.mul, Mat3.eye]

theorem Mat3.mul_eye (A : Mat3) : A.mul Mat3.eye = A := by
  cases A
  simp [Mat3.mul, Mat3.eye]

theorem warp_points_length (m : Mapping) (pts : List (ℚ × ℚ)) :
    (m.warp_points pts).length = pts.length := by
  unfold Mapping.warp_points
  split <;> simp

theorem gridPoints_length (oh ow : ℕ) : (gridPoints oh ow).length = ow * oh := by
  simp [gridPoints]

/-- Claim C1: for every parameter vector of length 2, 6 or 8, from_params
followed by get_params returns the original parameters exactly (exact
rational arithmetic; the matrix normalizer is 1 in all three cases). -/
theorem C1_from_params_get_params_round_trip :
    (∀ dx dy : ℚ,
      (Mapping.from_params [dx, dy]).bind Mapping.get_params = some [dx, dy]) ∧
    (∀ q1 q2 q3 q4 q5 q6 : ℚ,
      (Mapping.from_params [q1, q2, q3, q4, q5, q6]).bind Mapping.get_params =
        some [q1, q2, q3, q4, q5, q6]) ∧
    (∀ q1 q2 q3 q4 q5 q6 q7 q8 : ℚ,
      (Mapping.from_params [q1, q2, q3, q4, q5, q6, q7, q8]).bind Mapping.get_params =
        some [q1, q2, q3, q4, q5, q6, q7, q8]) := by
  refine ⟨?_, ?_, ?_⟩ <;> intros <;>
    simp [Mapping.from_params, Mapping.from_matrix, Mapping.get_params, Mat3.divScalar]

/-- Claim C2: warp_points returns the input unchanged for Identity kind;
for any other kind each point is lifted to homogeneous coordinates,
multiplied by the matrix and divided by max(third entry, 1e-8); on the
concrete projective test matrix the point (0,0) maps to
(3.56534624, 0.61332092) within 1e-6. -/
theorem C2_warp_points_behavior :
    (∀ (m : Mapping) (pts : List (ℚ × ℚ)),
      m.kind = .Identity → m.warp_points pts = pts) ∧
    (∀ (m : Mapping) (x y : ℚ), m.kind ≠ .Identity →
      m.warp_points [(x, y)] =
        [((m.mat.applyH x y).1 / max (m.mat.applyH x y).2.2 (1 / 100000000),
          (m.mat.applyH x y).2.1 / max (m.mat.applyH x y).2.2 (1 / 100000000))]) ∧
    (∃ q : ℚ × ℚ,
      (Mapping.from_matrix exampleProjMat .Projective).warp_points [(0, 0)] = [q] ∧
      |q.1 - 3.56534624| < 1 / 1000000 ∧ |q.2 - 0.61332092| < 1 / 1000000) := by
  refine ⟨?_, ?_, ⟨(9.315785 / 2.61286966, 1.60252762 / 2.61286966), ?_, ?_, ?_⟩⟩
  · intro m pts h
    simp [Mapping.warp_points, h]
  · intro m x y h
    simp [Mapping.warp_points, h]
  · norm_num [Mapping.warp_points, Mapping.from_matrix, exampleProjMat,
      Mat3.applyH, max_def]
    intro h
    exact absurd h (by decide)
  · rw [abs_sub_lt_iff]
    constructor <;> norm_num
  · rw [abs_sub_lt_iff]
    constructor <;> norm_num

theorem C2_witness :
    (Mapping.from_matrix Mat3.eye .Identity).warp_points [(3, 4)] = [(3, 4)] :=
  C2_warp_points_behavior.1 _ _ rfl

/-- Claim C3 counterexample: the rescaled shift(5,10) by factor 2 does not
have matrix scale(2)*M*scale(1/2) and warps (0,0) to (5/2, 5) rather than
(10,20): the source composes with scale(1/s) on the left and scale(s) on
the right. -/
theorem C3_counterexample :
    ((Mapping.shift 5 10).rescale 2).warp_points [(0, 0)] = [(5/2, 5)] ∧
    ((Mapping.shift 5 10).rescale 2).mat ≠
      ((Mapping.scale 2 2).mat.mul (Mapping.shift 5 10).mat).mul
        (Mapping.scale (1/2) (1/2)).mat := by
  constructor
  · norm_num [Mapping.rescale, Mapping.transform, Mapping.scale, Mapping.shift,
      Mapping.from_params, Mapping.from_matrix, Mapping.warp_points, Mat3.applyH,
      Mat3.mul, max_def]
    intro h
    exact absurd h (by decide)
  · norm_num [Mapping.rescale, Mapping.transform, Mapping.scale, Mapping.shift,
      Mapping.from_params, Mapping.from_matrix, Mat3.mul, Mat3.mk.injEq]

/-- Claim C3 (amended): rescale(s) returns the mapping with matrix
scale(1/s,1/s) * M.mat * scale(s,s) and the kind of M; in particular
shift(5,10).rescale(2) is Translational and warps (0,0) to (5/2, 5). -/
theorem C3_rescale_spec :
    (∀ (m : Mapping) (s : ℚ),
      (m.rescale s).mat =
        ((Mapping.scale (1/s) (1/s)).mat.mul m.mat).mul (Mapping.scale s s).mat ∧
      (m.rescale s).kind = m.kind) ∧
    ((Mapping.shift 5 10).rescale 2).kind = .Translational ∧
    ((Mapping.shift 5 10).rescale 2).warp_points [(0, 0)] = [(5/2, 5)] := by
  refine ⟨fun m s => ⟨rfl, rfl⟩, by decide, ?_⟩
  norm_num [Mapping.rescale, Mapping.transform, Mapping.scale, Mapping.shift,
    Mapping.from_params, Mapping.from_matrix, Mapping.warp_points, Mat3.applyH,
    Mat3.mul, max_def]
  intro h
  exact absurd h (by decide)

/-- All facts about the last-maximal selection of maxKind3, by enumeration
of the 125 kind triples. -/
theorem maxKind3_spec :
    ∀ a b c : TransformationType,
      (maxKind3 a b c).num_params =
        max (max a.num_params b.num_params) c.num_params ∧
      (maxKind3 a b c = .Unknown →
        a.num_params = 0 ∧ b.num_params = 0 ∧ c.num_params = 0) := by
  decide

/-- Claim C4 counterexample: transform(None, None) on the Identity-kinded
identity mapping yields kind Unknown although not all three contributing
kinds are Unknown (the middle one is Identity): Unknown wins the
max_by_key tie because Rust returns the last maximal element. -/
theorem C4_counterexample :
    ((Mapping.identityMap).transform none none).kind = .Unknown ∧
    Mapping.identityMap.kind ≠ .Unknown := by
  decide

/-- Claim C4 (amended): the result kind of transform always attains the
maximum num_params of the three contributing kinds (absent operands give
Unknown), and the result kind is Unknown only when all three kinds have
num_params 0 (each Identity or Unknown); Unknown never beats a kind of
positive num_params but can win a tie against Identity. -/
theorem C4_transform_kind (self : Mapping) (lhs rhs : Option Mapping) :
    TransformationType.num_params (self.transform lhs rhs).kind =
      max (max ((lhs.map Mapping.kind).getD .Unknown).num_params
        self.kind.num_params) ((rhs.map Mapping.kind).getD .Unknown).num_params ∧
    ((self.transform lhs rhs).kind = .Unknown →
      ((lhs.map Mapping.kind).getD .Unknown).num_params = 0 ∧
      self.kind.num_params = 0 ∧
      ((rhs.map Mapping.kind).getD .Unknown).num_params = 0) := by
  cases lhs <;> cases rhs <;> exact maxKind3_spec _ _ _

theorem C4_witness :
    TransformationType.num_params ((Mapping.identityMap).transform none none).kind = 0 ∧
    Mapping.identityMap.kind.num_params = 0 := by
  have h := C4_transform_kind Mapping.identityMap none none
  exact ⟨h.1.trans (by decide), (h.2 (by decide)).2.1⟩

/-- Claim C5 counterexample: transform(None, None) is distinguishable from
the original on the Identity-kinded identity mapping: the kind changes
from Identity to Unknown (and get_params then fails). -/
theorem C5_counterexample :
    ((Mapping.identityMap).transform none none).kind ≠ Mapping.identityMap.kind := by
  decide

/-- Claim C5 (amended): transform(None, None) always preserves the matrix,
and preserves the kind whenever the kind is not Identity; for an
Identity-kinded mapping the result kind becomes Unknown. -/
theorem C5_transform_none_none (m : Mapping) :
    (m.transform none none).mat = m.mat ∧
    (m.kind ≠ .Identity → (m.transform none none).kind = m.kind) ∧
    (m.kind = .Identity → (m.transform none none).kind = .Unknown) := by
  refine ⟨?_, ?_, ?_⟩
  · show (Mat3.eye.mul m.mat).mul Mat3.eye = m.mat
    rw [Mat3.eye_mul, Mat3.mul_eye]
  · intro h
    show maxKind3 .Unknown m.kind .Unknown = m.kind
    revert h
    cases m.kind <;> decide
  · intro h
    show maxKind3 .Unknown m.kind .Unknown = .Unknown
    rw [h]
    decide

theorem C5_witness :
    ((Mapping.shift 5 10).transform none none).mat = (Mapping.shift 5 10).mat ∧
    ((Mapping.shift 5 10).transform none none).kind = (Mapping.shift 5 10).kind := by
  have h := C5_transform_none_none (Mapping.shift 5 10)
  exact ⟨h.1, h.2.1 (by decide)⟩

theorem scanAcc_length (ms : List Mapping) :
    ∀ acc : Mapping, (scanAcc acc ms).length = ms.length := by
  induction ms with
  | nil => intro acc; rfl
  | cons x xs ih => intro acc; simp [scanAcc, ih]

/-- Index formula for the scan underlying accumulate: element k carries
the running left-to-right matrix product seeded by the accumulator. -/
theorem scanAcc_getElem? (ms : List Mapping) :
    ∀ (acc : Mapping) (k : ℕ), k < ms.length →
      ((scanAcc acc ms)[k]?).map Mapping.mat =
        some ((ms.take (k + 1)).foldl (fun A x => A.mul x.mat) acc.mat) := by
  induction ms with
  | nil => intro acc k hk; simp at hk
  | cons x xs ih =>
      intro acc k hk
      cases k with
      | zero =>
          simp [scanAcc, Mapping.transform, Mat3.eye_mul]
      | succ j =>
          have hj : j < xs.length := by simpa using hk
          have step := ih (acc.transform none (some x)) j hj
          simp only [scanAcc, List.getElem?_cons_succ] at step ⊢
          rw [step]
          simp [Mapping.transform, Mat3.eye_mul]

/-- Claim C6: accumulate returns n+1 mappings; element 0 is the identity
mapping; element k+1 has matrix equal to the left-to-right product of the
matrices of the first k+1 input mappings. -/
theorem C6_accumulate_spec :
    (∀ ms : List Mapping, (Mapping.accumulate ms).length = ms.length + 1) ∧
    (∀ ms : List Mapping, (Mapping.accumulate ms)[0]? = some Mapping.identityMap) ∧
    (∀ (ms : List Mapping) (k : ℕ), k < ms.length →
      ((Mapping.accumulate ms)[k + 1]?).map Mapping.mat =
        some (prodMats (ms.take (k + 1)))) := by
  refine ⟨?_, ?_, ?_⟩
  · intro ms
    simp [Mapping.accumulate, scanAcc_length]
  · intro ms
    simp only [Mapping.accumulate, scanAcc, List.getElem?_cons_zero]
    norm_num [Mapping.transform, Mapping.identityMap, Mapping.from_params,
      Mapping.from_matrix, Mat3.mul, Mat3.eye, maxKind3,
      TransformationType.num_params, Mapping.junk, Mat3.mk.injEq, Mapping.mk.injEq]
  · intro ms k hk
    have h := scanAcc_getElem? (Mapping.identityMap :: ms) Mapping.identityMap
      (k + 1) (by simpa using hk)
    rw [Mapping.accumulate, h]
    have hmm : Mapping.identityMap.mat.mul Mapping.identityMap.mat = Mat3.eye := by
      norm_num [Mapping.identityMap, Mapping.from_params, Mapping.from_matrix,
        Mat3.mul, Mat3.eye, Mat3.mk.injEq, Mapping.junk]
    simp [prodMats, Mapping.transform, hmm]

theorem C6_witness :
    (Mapping.accumulate [Mapping.shift 1 2]).length = 2 ∧
    ((Mapping.accumulate [Mapping.shift 1 2])[1]?).map Mapping.mat =
      some (prodMats [Mapping.shift 1 2]) := by
  refine ⟨C6_accumulate_spec.1 _, ?_⟩
  have h := C6_accumulate_spec.2.2 [Mapping.shift 1 2] 0 (by decide)
  simpa using h

/-- Claim C8: warp_array3_into fails (with the channel-depth error)
exactly when the source or destination channel count exceeds
MAX_CHANNELS = 8; the guard is evaluated before any pixel is processed,
so no other input can make the call fail. -/
theorem C8_channel_guard (m : Mapping) (data : List ℚ) (dh dw dc : ℕ)
    (out : List (List ℚ)) (valid : List Bool) (oh ow oc : ℕ)
    (points : Option (List (ℕ × ℕ))) (background : Option (List ℚ))
    (func : Option (List ℚ → List ℚ → List ℚ)) :
    warp_array3_into m data dh dw dc out valid oh ow oc points background func = none ↔
      8 < oc ∨ 8 < dc := by
  unfold warp_array3_into
  split
  · next h => exact iff_of_true rfl h
  · next h => simp [h]

/-- Claim C9: get_params fails on Unknown-kinded mappings while
get_params_full succeeds on every mapping and equals the projective
parameter list of the same matrix; Unknown-kinded mappings are reachable
through the public interface since identity() composed via
transform(None, None) produces one. -/
theorem C9_get_params_unknown :
    (∀ m : Mapping, m.kind = .Unknown → m.get_params = none) ∧
    (∀ m : Mapping,
      (Mapping.from_matrix m.mat .Projective).get_params = some m.get_params_full) ∧
    (Mapping.from_params [] = some Mapping.identityMap ∧
      ((Mapping.identityMap).transform none none).kind = .Unknown ∧
      ((Mapping.identityMap).transform none none).get_params = none) := by
  refine ⟨?_, fun m => rfl, by decide⟩
  intro m h
  simp [Mapping.get_params, h]

theorem C9_witness :
    (Mapping.from_matrix Mat3.eye .Unknown).get_params = none :=
  C9_get_params_unknown.1 _ rfl

theorem cycleTake_nil (n : ℕ) : cycleTake n ([] : List α) = [] := by
  simp [cycleTake]

/-- Claim C10: maximum_extent fails (the stack of an empty extent
collection panics) whenever the maps list or the sizes list is empty. -/
theorem C10_maximum_extent_empty (maps : List Mapping) (sizes : List (ℕ × ℕ))
    (h : maps = [] ∨ sizes = []) :
    Mapping.maximum_extent maps sizes = none := by
  rcases h with h | h <;> subst h
  · cases sizes with
    | nil => rfl
    | cons s ss =>
        simp only [Mapping.maximum_extent]
        rw [if_neg (by simp), cycleTake_nil, List.zip_nil_right]
        rfl
  · simp only [Mapping.maximum_extent]
    rw [if_pos (by simp), cycleTake_nil, List.zip_nil_right]
    rfl

theorem C10_witness : Mapping.maximum_extent [] [] = none :=
  C10_maximum_extent_empty [] [] (Or.inl rfl)

/-- Claim C7: in warp_array3_into with the synthesized full grid, every
destination pixel whose warped source coordinate lies within
[-pad, size-1+pad] on both axes (pad is 1 with a background, 0 without)
gets its valid flag set true; every pixel whose warped coordinate is out
of that range while no background is supplied gets valid set false and
its output slice left untouched. -/
theorem C7_resampler_validity
    (m : Mapping) (data : List ℚ) (dh dw dc : ℕ)
    (out : List (List ℚ)) (valid : List Bool) (oh ow oc : ℕ)
    (background : Option (List ℚ)) (k : ℕ) (x y : ℚ)
    (hoc : oc ≤ 8) (hdc : dc ≤ 8)
    (hout : out.length = ow * oh) (hvalid : valid.length = ow * oh)
    (hxy : (m.warp_points ((gridPoints oh ow).map
        (fun p => ((p.1 : ℚ), (p.2 : ℚ)))))[k]? = some (x, y)) :
    ∃ o v,
      warp_array3_into m data dh dw dc out valid oh ow oc none background none =
        some (o, v) ∧
      ((in_range (padOf background) dw x && in_range (padOf background) dh y) = true →
        v[k]? = some true) ∧
      ((in_range (padOf background) dw x && in_range (padOf background) dh y) = false ∧
          background = none →
        v[k]? = some false ∧ o[k]? = out[k]?) := by
  have hwplen : (m.warp_points ((gridPoints oh ow).map
      (fun p => ((p.1 : ℚ), (p.2 : ℚ))))).length = ow * oh := by
    rw [warp_points_length]
    simp [gridPoints]
  have hk : k < ow * oh := by
    by_contra hc
    rw [List.getElem?_eq_none_iff.mpr (by rw [hwplen]; omega)] at hxy
    exact Option.noConfusion hxy
  have hko : k < out.length := by rw [hout]; exact hk
  obtain ⟨dst, hdst⟩ : ∃ dst, out[k]? = some dst :=
    ⟨out[k], List.getElem?_eq_getElem hko⟩
  simp only [warp_array3_into, Option.getD_none]
  rw [if_neg (by omega)]
  have hn : min out.length (min valid.length (m.warp_points ((gridPoints oh ow).map
      (fun p => ((p.1 : ℚ), (p.2 : ℚ))))).length) = ow * oh := by
    rw [hout, hvalid, hwplen]
    simp
  rw [hn]
  rw [List.take_of_length_le (le_of_eq hout), List.take_of_length_le (le_of_eq hwplen),
    List.drop_eq_nil_of_le (le_of_eq hout), List.drop_eq_nil_of_le (le_of_eq hvalid)]
  simp only [List.append_nil]
  refine ⟨_, _, rfl, ?_, ?_⟩
  · intro hcond
    rw [List.getElem?_map, List.getElem?_zipWith', hdst, hxy]
    simp only [Option.map_some', Option.some_bind]
    have hb : (!(in_range (padOf background) dw x)
        || !(in_range (padOf background) dh y)) = false := by
      rw [← Bool.not_and, hcond]
      rfl
    simp [hb]
  · rintro ⟨hcond, hbkg⟩
    subst hbkg
    rw [List.getElem?_map, List.getElem?_zipWith', hdst, hxy]
    rw [List.getElem?_map, List.getElem?_zipWith', hdst, hxy]
    simp only [Option.map_some', Option.some_bind]
    have hb : (!(in_range (padOf none) dw x)
        || !(in_range (padOf none) dh y)) = true := by
      rw [← Bool.not_and, hcond]
      rfl
    simp [hb, hdst]

theorem C7_witness :
    ∃ o v,
      warp_array3_into (Mapping.shift 0 0) [1] 1 1 1 [[0]] [false] 1 1 1
          none none none = some (o, v) ∧
      ((in_range (padOf none) 1 0 && in_range (padOf none) 1 0) = true →
        v[0]? = some true) ∧
      ((in_range (padOf none) 1 0 && in_range (padOf none) 1 0) = false ∧
          (none : Option (List ℚ)) = none →
        v[0]? = some false ∧ o[0]? = [[(0 : ℚ)]][0]?) :=
  C7_resampler_validity (Mapping.shift 0 0) [1] 1 1 1 [[0]] [false] 1 1 1
    none 0 0 0 (by norm_num) (by norm_num) rfl rfl
    (by
      have hg : (gridPoints 1 1).map (fun p => ((p.1 : ℚ), (p.2 : ℚ))) = [(0, 0)] := by
        simp [gridPoints, List.range_succ]
      rw [hg]
      norm_num [Mapping.warp_points, Mapping.shift, Mapping.from_params,
        Mapping.from_matrix, Mapping.junk, Mat3.applyH, max_def])
